import Mathlib

/-! SiK radio firmware: boot sequence and 200 Hz tick kernel

A shallow embedding of `Firmware/radio/main.c`.

* The special function registers, the file-static `delay_counter` and the two
  board-info globals form the `World`.
* Everything the C code does that is visible outside the function (a store to a
  special function register or bit, a store to the `volatile` delay counter, a
  call of a function defined in another translation unit) is appended, in
  program order, to `World.trace`.
* Functions of other translation units are not defined in `main.c`; their
  results are inputs (`Env`) and a call only leaves its event in the trace.
  `delay_counter` is `static`, so such a function cannot store to it except
  through `delay_set` / `delay_set_ticks`.
* `panic` ends in `for (;;);`. A function that reaches it never returns to its
  caller, which is the outcome `Res.halt`.
* `delay_msec` spins on `delay_expired()` until the interrupt handler has
  counted the delay down; it has no meaning without the concurrent tick and is
  left out.
* Macros and enumerators that come from headers (`SYSCLK`, `CONFIG_PAGE`,
  `NUM_FREQ_CHANNELS`, `FREQ_433`, ...) are the fields of `Consts`.
-/

namespace Sik

/-! ## Data model -/

/-- Special function registers and bit-addressable flags written by `main.c`. -/
inductive Reg where
  | PCA0MD | FLSCL | OSCICN | CLKSEL | VDM0CN | RSTSRC
  | P0MDOUT | SFRPAGE | P0DRV | XBR0 | XBR1 | XBR2
  | P1MDOUT | P1DRV | SPI1CFG | SPI1CN | SPI1CKR | NSS1
  | IE0 | TMR3RLL | TMR3RLH | TMR3CN | EIE1 | EA
  | LED_BOOTLOADER | LED_RADIO
  deriving DecidableEq, Repr

/-- Parameter identifiers passed to `param_get` by `main.c`. -/
inductive ParamID where
  | PARAM_SERIAL_SPEED | PARAM_NETID | PARAM_AIR_SPEED
  deriving DecidableEq, Repr

/-- Externally visible steps, in the order the program performs them. -/
inductive Event where
  /-- Store `v` to a special function register or bit. -/
  | sfr (r : Reg) (v : Nat)
  /-- Store `v` to the `volatile` variable `delay_counter`. -/
  | delay_counter (v : Nat)
  | param_load
  | param_default
  | param_get (p : ParamID)
  | serial_init (speed : Nat)
  | radio_initialise
  | radio_set_frequency (freq : Nat)
  | radio_set_channel_spacing (spacing : Nat)
  | radio_set_channel (channel : Nat)
  | radio_configure (air_rate : Nat)
  | radio_set_network_id (id : Nat)
  | tdm_init
  | fhop_init (id : Nat)
  | radio_receiver_on
  | tdm_serial_loop
  | at_timer
  | tdm_tick
  | puts (s : String)
  | vprintf (fmt : String) (args : List Nat)
  deriving DecidableEq, Repr

/-- Values of the macros and enumerators `main.c` takes from its headers. -/
structure Consts where
  SYSCLK : Nat
  CONFIG_PAGE : Nat
  LEGACY_PAGE : Nat
  LED_ON : Nat
  LED_OFF : Nat
  NUM_FREQ_CHANNELS : Nat
  FREQ_433 : Nat
  FREQ_470 : Nat
  FREQ_868 : Nat
  FREQ_915 : Nat

/-- Inputs of one boot: the board-info registers left by the bootloader and the
results of the calls into other translation units. -/
structure Env where
  BOARD_FREQUENCY_REG : Nat
  BOARD_BL_VERSION_REG : Nat
  param_load : Bool
  param_get : ParamID → Nat
  radio_initialise : Bool
  radio_configure : Bool
  radio_receiver_on : Bool

/-- Machine state seen by `main.c`. -/
structure World where
  sfr : Reg → Nat
  delay_counter : Nat
  g_board_frequency : Nat
  g_board_bl_version : Nat
  trace : List Event

/-- Outcome of a function that may call `panic`. -/
inductive Res where
  /-- The function ran to its end and returned. -/
  | ok (w : World)
  /-- The function entered the `for (;;);` of `panic`. -/
  | halt (w : World)

/-- World in which a function stopped, returned or halted. -/
def Res.world : Res → World
  | Res.ok w => w
  | Res.halt w => w

/-- Whether control is stuck in `panic`. -/
def Res.halted : Res → Bool
  | Res.ok _ => false
  | Res.halt _ => true

/-- Sequencing: the rest of the caller runs only if the callee returned. -/
def Res.bind (r : Res) (k : World → Res) : Res :=
  match r with
  | Res.ok w => k w
  | Res.halt w => Res.halt w

/-- Record a call of a function of another translation unit. -/
def World.call (w : World) (e : Event) : World :=
  { w with trace := w.trace ++ [e] }

/-- Store to a special function register or bit. -/
def World.set (w : World) (r : Reg) (v : Nat) : World :=
  { w with sfr := Function.update w.sfr r v, trace := w.trace ++ [Event.sfr r v] }

/-- Store to `delay_counter`. -/
def World.set_delay_counter (w : World) (v : Nat) : World :=
  { w with delay_counter := v, trace := w.trace ++ [Event.delay_counter v] }

/-- Events appended to the trace between world `w` and the later world `w2`. -/
def emitted (w w2 : World) : List Event :=
  w2.trace.drop w.trace.length

/-- World after reset with every register cleared; `delay_counter` is a static
without initialiser, so it starts at zero. -/
def World.reset : World :=
  { sfr := fun _ => 0, delay_counter := 0, g_board_frequency := 0,
    g_board_bl_version := 0, trace := [] }

/-! ## Delay timer (`main.c` lines 259-278) -/

/-- `delay_set(uint16_t msec)`. The sum `msec + 4` is 16-bit unsigned
arithmetic and the store narrows to the `uint8_t` counter. -/
def delay_set (msec : Nat) (w : World) : World :=
  if msec ≥ 1250 then
    w.set_delay_counter 255
  else
    w.set_delay_counter (((msec + 4) % 65536 / 5) % 256)

/-- `delay_set_ticks(uint8_t ticks)`. -/
def delay_set_ticks (ticks : Nat) (w : World) : World :=
  w.set_delay_counter (ticks % 256)

/-- `delay_expired()`. -/
def delay_expired (w : World) : Bool :=
  w.delay_counter == 0

/-! ## Tick interrupt (`main.c` lines 241-257) -/

/-- `T3_ISR`: re-arm timer 3, AT parser tick, delay counter update, TDM tick.
`delay_counter--` is a decrement of a `uint8_t`. -/
def T3_ISR (w : World) : World :=
  let w := w.set Reg.TMR3CN 0x04
  let w := w.call Event.at_timer
  let w := if w.delay_counter > 0 then
      w.set_delay_counter ((w.delay_counter + 255) % 256)
    else w
  w.call Event.tdm_tick

/-- Steps of the delay timer as seen from outside: the two setters and the
tick. -/
inductive Op where
  | set (msec : Nat)
  | set_ticks (ticks : Nat)
  | tick
  deriving DecidableEq, Repr

/-- Run one step. -/
def Op.run : Op → World → World
  | Op.set msec, w => delay_set msec w
  | Op.set_ticks ticks, w => delay_set_ticks ticks w
  | Op.tick, w => T3_ISR w

/-- Run an interleaving of setter calls and ticks, first step first. -/
def runOps : List Op → World → World
  | [], w => w
  | o :: os, w => runOps os (o.run w)

/-- Value of `delay_counter` in effect when the first occurrence of event `e`
is reached, replaying the stores of the trace from the value `c`. -/
def counterSeenAt (e : Event) : Nat → List Event → Option Nat
  | _, [] => none
  | c, x :: xs =>
    if x = e then some c
    else match x with
      | Event.delay_counter v => counterSeenAt e v xs
      | _ => counterSeenAt e c xs

/-! ## Panic (`main.c` lines 115-126) -/

/-- Output produced by `panic(fmt, ...)` before it spins. -/
def panic_output (fmt : String) (args : List Nat) : List Event :=
  [Event.puts "\n**PANIC**", Event.vprintf fmt args, Event.puts ""]

/-- `panic(fmt, ...)`: banner, formatted message, newline, then `for (;;);`. -/
def panic (fmt : String) (args : List Nat) (w : World) : Res :=
  let w := w.call (Event.puts "\n**PANIC**")
  let w := w.call (Event.vprintf fmt args)
  let w := w.call (Event.puts "")
  Res.halt w

/-! ## Peripheral bring-up (`main.c` lines 128-186) -/

/-- The settling loop `for (i = 0; i < 350; i++);` over a `uint16_t`; the
result is the value of `i` when the loop is left. -/
def settle_loop (i : Nat) : Nat :=
  if i < 350 then settle_loop ((i + 1) % 65536) else i
termination_by 350 - i
decreasing_by omega

/-- The timer 3 reload value `65536UL - ((SYSCLK / 12) / 200)` in 32-bit
unsigned arithmetic. -/
def tmr3_reload (k : Consts) : Nat :=
  (65536 + 4294967296 - ((k.SYSCLK / 12) / 200) % 4294967296) % 4294967296

/-- `hardware_init`. A compound assignment reads the register, combines it
with the constant and stores the low byte. -/
def hardware_init (k : Consts) (env : Env) (w : World) : World :=
  -- Disable the watchdog timer
  let w := w.set Reg.PCA0MD ((w.sfr Reg.PCA0MD &&& (0xFFFF - 0x40)) % 256)
  -- Select the internal oscillator, prescale by 1
  let w := w.set Reg.FLSCL 0x40
  let w := w.set Reg.OSCICN 0x8F
  let w := w.set Reg.CLKSEL 0x00
  -- Configure the VDD brown out detector
  let w := w.set Reg.VDM0CN 0x80
  let _i := settle_loop 0
  let w := w.set Reg.RSTSRC 0x06
  -- Configure crossbar for UART
  let w := w.set Reg.P0MDOUT 0x10
  let w := w.set Reg.SFRPAGE k.CONFIG_PAGE
  let w := w.set Reg.P0DRV 0x10
  let w := w.set Reg.SFRPAGE k.LEGACY_PAGE
  let w := w.set Reg.XBR0 0x01
  -- SPI1
  let w := w.set Reg.XBR1 ((w.sfr Reg.XBR1 ||| 0x40) % 256)
  let w := w.set Reg.P1MDOUT ((w.sfr Reg.P1MDOUT ||| 0x15) % 256)
  let w := w.set Reg.SFRPAGE k.CONFIG_PAGE
  let w := w.set Reg.P1DRV ((w.sfr Reg.P1DRV ||| 0x15) % 256)
  let w := w.set Reg.SFRPAGE k.LEGACY_PAGE
  let w := w.set Reg.SPI1CFG 0x40
  let w := w.set Reg.SPI1CN 0x00
  let w := w.set Reg.SPI1CKR 0x00
  let w := w.set Reg.SPI1CN ((w.sfr Reg.SPI1CN ||| 0x01) % 256)
  let w := w.set Reg.NSS1 1
  -- Clear the radio interrupt state
  let w := w.set Reg.IE0 0
  -- 200Hz timer tick using timer3
  let w := w.set Reg.TMR3RLL (tmr3_reload k &&& 0xff)
  let w := w.set Reg.TMR3RLH ((tmr3_reload k >>> 8) &&& 0xff)
  let w := w.set Reg.TMR3CN 0x04
  let w := w.set Reg.EIE1 ((w.sfr Reg.EIE1 ||| 0x80) % 256)
  -- UART - set the configured speed
  let w := w.call (Event.param_get ParamID.PARAM_SERIAL_SPEED)
  let w := w.call (Event.serial_init (env.param_get ParamID.PARAM_SERIAL_SPEED))
  -- global interrupt enable
  let w := w.set Reg.EA 1
  -- Turn on the 'radio running' LED and turn off the bootloader LED
  let w := w.set Reg.LED_RADIO k.LED_ON
  let w := w.set Reg.LED_BOOTLOADER k.LED_OFF
  -- Crossbar (GPIO) enable
  w.set Reg.XBR2 0x40

/-! ## Radio bring-up (`main.c` lines 188-239) -/

/-- The `switch (g_board_frequency)` of `radio_init`: the base frequency of a
supported band, `none` for the `default:` arm. -/
def band_frequency (k : Consts) (band : Nat) : Option Nat :=
  if band = k.FREQ_433 then some 433000000
  else if band = k.FREQ_470 then some 470000000
  else if band = k.FREQ_868 then some 868000000
  else if band = k.FREQ_915 then some 915000000
  else none

/-- `radio_init`. The argument of `radio_set_channel` is recorded as the value
of the expression `param_get(PARAM_NETID) % NUM_FREQ_CHANNELS`, the argument of
`radio_configure` as `param_get(PARAM_AIR_SPEED)*1000UL` in 32-bit unsigned
arithmetic. -/
def radio_init (k : Consts) (env : Env) (w : World) : Res :=
  -- Do generic PHY initialisation
  let w := w.call Event.radio_initialise
  (if !env.radio_initialise then panic "radio_initialise failed" [] w
   else Res.ok w).bind fun w =>
  match band_frequency k w.g_board_frequency with
  | none => panic "bad board frequency %d" [w.g_board_frequency] w
  | some freq =>
  -- set the frequency and channel spacing
  let w := w.call (Event.radio_set_frequency freq)
  -- set channel spacing to use 12.5MHz total frequency width
  let w := w.call (Event.radio_set_channel_spacing 250000)
  -- start on a channel chosen by network ID
  let w := w.call (Event.param_get ParamID.PARAM_NETID)
  let w := w.call (Event.radio_set_channel
    (env.param_get ParamID.PARAM_NETID % k.NUM_FREQ_CHANNELS))
  -- And initialise the radio with them.
  let w := w.call (Event.param_get ParamID.PARAM_AIR_SPEED)
  let w := w.call (Event.radio_configure
    (env.param_get ParamID.PARAM_AIR_SPEED * 1000 % 4294967296))
  (if !env.radio_configure then panic "radio_configure failed" [] w
   else Res.ok w).bind fun w =>
  -- setup network ID
  let w := w.call (Event.param_get ParamID.PARAM_NETID)
  let w := w.call (Event.radio_set_network_id (env.param_get ParamID.PARAM_NETID))
  -- initialise TDM system
  let w := w.call Event.tdm_init
  -- initialise frequency hopping system
  let w := w.call (Event.param_get ParamID.PARAM_NETID)
  let w := w.call (Event.fhop_init (env.param_get ParamID.PARAM_NETID))
  Res.ok w

/-! ## Boot sequence (`main.c` lines 85-113) -/

/-- `main`. -/
def main (k : Consts) (env : Env) (w : World) : Res :=
  -- Stash board info from the bootloader
  let w := { w with g_board_frequency := env.BOARD_FREQUENCY_REG }
  let w := { w with g_board_bl_version := env.BOARD_BL_VERSION_REG }
  -- try to load parameters; set them to defaults if that fails
  let w := w.call Event.param_load
  let w := if !env.param_load then w.call Event.param_default else w
  -- Do hardware initialisation.
  let w := hardware_init k env w
  -- do radio initialisation
  (radio_init k env w).bind fun w =>
  -- turn on the receiver
  let w := w.call Event.radio_receiver_on
  (if !env.radio_receiver_on then panic "failed to enable receiver" [] w
   else Res.ok w).bind fun w =>
  Res.ok (w.call Event.tdm_serial_loop)

/-! ## Vocabulary of the properties -/

/-- The band is one of the four `case` labels of `radio_init`. -/
def Consts.supported (k : Consts) (band : Nat) : Prop :=
  band = k.FREQ_433 ∨ band = k.FREQ_470 ∨ band = k.FREQ_868 ∨ band = k.FREQ_915

instance (k : Consts) (band : Nat) : Decidable (k.supported band) := by
  unfold Consts.supported; infer_instance

/-- The four `case` labels are pairwise different, as C requires of a
`switch`. -/
def Consts.labels_distinct (k : Consts) : Prop :=
  k.FREQ_433 ≠ k.FREQ_470 ∧ k.FREQ_433 ≠ k.FREQ_868 ∧ k.FREQ_433 ≠ k.FREQ_915 ∧
  k.FREQ_470 ≠ k.FREQ_868 ∧ k.FREQ_470 ≠ k.FREQ_915 ∧ k.FREQ_868 ≠ k.FREQ_915

instance (k : Consts) : Decidable k.labels_distinct := by
  unfold Consts.labels_distinct; infer_instance

/-- Events that follow the first occurrence of `e`. -/
def eventsAfter (e : Event) : List Event → List Event
  | [] => []
  | x :: xs => if x = e then xs else eventsAfter e xs

/-- The event is a store to the global interrupt enable bit. -/
def Event.isEAStore : Event → Bool
  | Event.sfr Reg.EA _ => true
  | _ => false

/-- The constants of the Si1000 boards: 24.5 MHz system clock, SFR pages,
active-low LEDs, 50 hopping channels and the bootloader's band codes. -/
def Consts.si1000 : Consts :=
  { SYSCLK := 24500000, CONFIG_PAGE := 0x0F, LEGACY_PAGE := 0x00,
    LED_ON := 0, LED_OFF := 1, NUM_FREQ_CHANNELS := 50,
    FREQ_433 := 0x43, FREQ_470 := 0x47, FREQ_868 := 0x86, FREQ_915 := 0x91 }

/-- A boot in which every external call succeeds, on a 915 MHz board with
network id 5. -/
def Env.good : Env :=
  { BOARD_FREQUENCY_REG := 0x91, BOARD_BL_VERSION_REG := 1, param_load := true,
    param_get := fun p =>
      match p with
      | ParamID.PARAM_SERIAL_SPEED => 57
      | ParamID.PARAM_NETID => 5
      | ParamID.PARAM_AIR_SPEED => 64,
    radio_initialise := true, radio_configure := true, radio_receiver_on := true }

/-! ## Expected steps, used to state and prove the properties -/

/-- The steps of `hardware_init`, given the register contents at entry. -/
def hardware_init_events (k : Consts) (env : Env) (sfr : Reg → Nat) : List Event :=
  [Event.sfr Reg.PCA0MD ((sfr Reg.PCA0MD &&& (0xFFFF - 0x40)) % 256),
   Event.sfr Reg.FLSCL 0x40,
   Event.sfr Reg.OSCICN 0x8F,
   Event.sfr Reg.CLKSEL 0x00,
   Event.sfr Reg.VDM0CN 0x80,
   Event.sfr Reg.RSTSRC 0x06,
   Event.sfr Reg.P0MDOUT 0x10,
   Event.sfr Reg.SFRPAGE k.CONFIG_PAGE,
   Event.sfr Reg.P0DRV 0x10,
   Event.sfr Reg.SFRPAGE k.LEGACY_PAGE,
   Event.sfr Reg.XBR0 0x01,
   Event.sfr Reg.XBR1 ((sfr Reg.XBR1 ||| 0x40) % 256),
   Event.sfr Reg.P1MDOUT ((sfr Reg.P1MDOUT ||| 0x15) % 256),
   Event.sfr Reg.SFRPAGE k.CONFIG_PAGE,
   Event.sfr Reg.P1DRV ((sfr Reg.P1DRV ||| 0x15) % 256),
   Event.sfr Reg.SFRPAGE k.LEGACY_PAGE,
   Event.sfr Reg.SPI1CFG 0x40,
   Event.sfr Reg.SPI1CN 0x00,
   Event.sfr Reg.SPI1CKR 0x00,
   Event.sfr Reg.SPI1CN 0x01,
   Event.sfr Reg.NSS1 1,
   Event.sfr Reg.IE0 0,
   Event.sfr Reg.TMR3RLL (tmr3_reload k &&& 0xff),
   Event.sfr Reg.TMR3RLH ((tmr3_reload k >>> 8) &&& 0xff),
   Event.sfr Reg.TMR3CN 0x04,
   Event.sfr Reg.EIE1 ((sfr Reg.EIE1 ||| 0x80) % 256),
   Event.param_get ParamID.PARAM_SERIAL_SPEED,
   Event.serial_init (env.param_get ParamID.PARAM_SERIAL_SPEED),
   Event.sfr Reg.EA 1,
   Event.sfr Reg.LED_RADIO k.LED_ON,
   Event.sfr Reg.LED_BOOTLOADER k.LED_OFF,
   Event.sfr Reg.XBR2 0x40]

/-- The steps of `radio_init` after a successful `radio_configure`. -/
def radio_init_tail (env : Env) : List Event :=
  [Event.param_get ParamID.PARAM_NETID,
   Event.radio_set_network_id (env.param_get ParamID.PARAM_NETID),
   Event.tdm_init,
   Event.param_get ParamID.PARAM_NETID,
   Event.fhop_init (env.param_get ParamID.PARAM_NETID)]

/-- The steps of `radio_init` from `radio_set_frequency` to `radio_configure`. -/
def radio_init_setup (k : Consts) (env : Env) (freq : Nat) : List Event :=
  [Event.radio_set_frequency freq,
   Event.radio_set_channel_spacing 250000,
   Event.param_get ParamID.PARAM_NETID,
   Event.radio_set_channel (env.param_get ParamID.PARAM_NETID % k.NUM_FREQ_CHANNELS),
   Event.param_get ParamID.PARAM_AIR_SPEED,
   Event.radio_configure (env.param_get ParamID.PARAM_AIR_SPEED * 1000 % 4294967296)]

/-- The steps of `radio_init` after the call of `radio_initialise`, by the
first step that fails. -/
def radio_init_rest (k : Consts) (env : Env) (band : Nat) : List Event :=
  if env.radio_initialise = false then panic_output "radio_initialise failed" []
  else match band_frequency k band with
    | none => panic_output "bad board frequency %d" [band]
    | some freq =>
      radio_init_setup k env freq ++
        (if env.radio_configure = false then panic_output "radio_configure failed" []
         else radio_init_tail env)

/-- The steps of `radio_init` for a board band. -/
def radio_init_events (k : Consts) (env : Env) (band : Nat) : List Event :=
  Event.radio_initialise :: radio_init_rest k env band

/-- Whether `radio_init` ends in `panic` for a board band. -/
def radio_init_fails (k : Consts) (env : Env) (band : Nat) : Bool :=
  !env.radio_initialise || (band_frequency k band).isNone || !env.radio_configure

/-- Arguments of the calls of `radio_set_frequency` in a trace, in order. -/
def frequencyArgs : List Event → List Nat
  | [] => []
  | Event.radio_set_frequency f :: xs => f :: frequencyArgs xs
  | _ :: xs => frequencyArgs xs

/-- Arguments of the calls of `radio_set_channel` in a trace, in order. -/
def channelArgs : List Event → List Nat
  | [] => []
  | Event.radio_set_channel c :: xs => c :: channelArgs xs
  | _ :: xs => channelArgs xs

/-- The steps of one boot: what `main` appends to the trace. -/
def boot_events (k : Consts) (env : Env) (w : World) : List Event :=
  emitted w (main k env w).world

/-- The steps of `main` up to the return of `hardware_init`. -/
def main_start (k : Consts) (env : Env) (sfr : Reg → Nat) : List Event :=
  Event.param_load :: ((if env.param_load = false then [Event.param_default] else []) ++
    hardware_init_events k env sfr)

/-- The steps of `main` after `radio_init` returned. -/
def main_finish (env : Env) : List Event :=
  Event.radio_receiver_on ::
    (if env.radio_receiver_on = false then panic_output "failed to enable receiver" []
     else [Event.tdm_serial_loop])

/-- The steps of `main`, by the first step that fails. -/
def main_events (k : Consts) (env : Env) (sfr : Reg → Nat) : List Event :=
  main_start k env sfr ++ (radio_init_events k env env.BOARD_FREQUENCY_REG ++
    (if radio_init_fails k env env.BOARD_FREQUENCY_REG = true then []
     else main_finish env))

/-- Every fallible step of the boot succeeds: PHY initialisation, a supported
board band, PHY configuration and the receiver enable. -/
def boot_succeeds (k : Consts) (env : Env) : Prop :=
  env.radio_initialise = true ∧ k.supported env.BOARD_FREQUENCY_REG ∧
  env.radio_configure = true ∧ env.radio_receiver_on = true

/-! ## Basic facts about the trace -/

@[simp] theorem trace_call (w : World) (e : Event) :
    (w.call e).trace = w.trace ++ [e] := rfl

@[simp] theorem trace_set (w : World) (r : Reg) (v : Nat) :
    (w.set r v).trace = w.trace ++ [Event.sfr r v] := rfl

@[simp] theorem trace_set_delay_counter (w : World) (v : Nat) :
    (w.set_delay_counter v).trace = w.trace ++ [Event.delay_counter v] := rfl

@[simp] theorem delay_counter_call (w : World) (e : Event) :
    (w.call e).delay_counter = w.delay_counter := rfl

@[simp] theorem delay_counter_set (w : World) (r : Reg) (v : Nat) :
    (w.set r v).delay_counter = w.delay_counter := rfl

@[simp] theorem delay_counter_set_delay_counter (w : World) (v : Nat) :
    (w.set_delay_counter v).delay_counter = v := rfl

theorem emitted_of_append {w w2 : World} {evs : List Event}
    (h : w2.trace = w.trace ++ evs) : emitted w w2 = evs := by
  simp [emitted, h]

/-! ## Delay timer -/

/-- Rounding up a quotient by the 5 ms tick period. -/
theorem ceil_div_five (ms : ℕ) : ⌈(ms : ℚ) / 5⌉₊ = (ms + 4) / 5 := by
  apply le_antisymm
  · rw [Nat.ceil_le, div_le_iff₀ (by norm_num)]
    have h : ms ≤ (ms + 4) / 5 * 5 := by omega
    exact_mod_cast h
  · rcases Nat.eq_zero_or_pos ((ms + 4) / 5) with h0 | hpos
    · omega
    · obtain ⟨m, hm⟩ : ∃ m, (ms + 4) / 5 = m + 1 := ⟨(ms + 4) / 5 - 1, by omega⟩
      rw [hm, Nat.add_one_le_iff, Nat.lt_ceil, lt_div_iff₀ (by norm_num)]
      have h : m * 5 < ms := by omega
      exact_mod_cast h

theorem delay_set_counter (ms : Nat) (w : World) :
    (delay_set ms w).delay_counter =
      if ms ≥ 1250 then 255 else ((ms + 4) % 65536 / 5) % 256 := by
  unfold delay_set
  split <;> simp

theorem T3_ISR_counter (w : World) :
    (T3_ISR w).delay_counter =
      if w.delay_counter > 0 then (w.delay_counter + 255) % 256 else w.delay_counter := by
  unfold T3_ISR
  by_cases h : w.delay_counter > 0 <;> simp [h]

theorem T3_ISR_counter_lt (w : World) (h : w.delay_counter < 256) :
    (T3_ISR w).delay_counter = w.delay_counter - 1 := by
  rw [T3_ISR_counter]
  split <;> omega

theorem ticks_counter (k : Nat) (w : World) (h : w.delay_counter < 256) :
    (T3_ISR^[k] w).delay_counter = w.delay_counter - k := by
  induction k generalizing w with
  | zero => simp
  | succ n ih =>
    rw [Function.iterate_succ_apply, ih _ (by rw [T3_ISR_counter_lt w h]; omega),
      T3_ISR_counter_lt w h]
    omega

theorem T3_ISR_trace (w : World) :
    (T3_ISR w).trace = w.trace ++
      (if w.delay_counter > 0 then
        [Event.sfr Reg.TMR3CN 4, Event.at_timer,
          Event.delay_counter ((w.delay_counter + 255) % 256), Event.tdm_tick]
      else [Event.sfr Reg.TMR3CN 4, Event.at_timer, Event.tdm_tick]) := by
  unfold T3_ISR
  by_cases h : w.delay_counter > 0 <;> simp [h]

theorem Op_run_counter_lt (o : Op) (w : World) (h : w.delay_counter < 256) :
    (o.run w).delay_counter < 256 := by
  cases o with
  | set msec =>
    simp only [Op.run, delay_set_counter]
    split <;> omega
  | set_ticks ticks =>
    simp only [Op.run, delay_set_ticks, delay_counter_set_delay_counter]
    omega
  | tick =>
    simp only [Op.run, T3_ISR_counter_lt w h]
    omega

/-! ## Claims about the delay timer and the tick handler -/

/-- C1, as stated, fails at 1250 ms: `delay_set(1250)` leaves the counter at
255 although the rounded-up tick count 250 fits in the byte-wide counter. -/
theorem delay_set_1250_not_min :
    (delay_set 1250 World.reset).delay_counter = 255 ∧
    min ⌈((1250 : ℕ) : ℚ) / 5⌉₊ 255 = 250 ∧
    (delay_set 1250 World.reset).delay_counter ≠ min ⌈((1250 : ℕ) : ℚ) / 5⌉₊ 255 := by
  have hc : ⌈((1250 : ℕ) : ℚ) / 5⌉₊ = 250 := by rw [ceil_div_five]
  refine ⟨by simp [delay_set_counter], by rw [hc]; rfl, ?_⟩
  rw [hc]
  simp [delay_set_counter]

/-- C1, amended: for every 16-bit `ms`, `delay_set(ms)` leaves the delay
counter at the rounded-up tick count `ceil(ms / 5)` when `ms < 1250` (a count
of at most 250) and at the maximum 255 when `ms >= 1250`; this is
`min(ceil(ms / 5), 255)` exactly when `ms < 1250` or `ms > 1270`. -/
theorem delay_set_saturation (ms : Nat) (w : World) (h16 : ms < 65536) :
    (ms < 1250 →
      (delay_set ms w).delay_counter = ⌈(ms : ℚ) / 5⌉₊ ∧ ⌈(ms : ℚ) / 5⌉₊ ≤ 250) ∧
    (1250 ≤ ms → (delay_set ms w).delay_counter = 255) ∧
    ((delay_set ms w).delay_counter = min ⌈(ms : ℚ) / 5⌉₊ 255 ↔
      (ms < 1250 ∨ 1270 < ms)) := by
  rw [ceil_div_five, delay_set_counter]
  refine ⟨fun h => ?_, fun h => ?_, ?_⟩
  · rw [if_neg (by omega)]
    omega
  · rw [if_pos h]
  · split <;> omega

theorem delay_set_saturation_witness :
    12 < 65536 ∧
    (12 < 1250 →
      (delay_set 12 World.reset).delay_counter = ⌈((12 : ℕ) : ℚ) / 5⌉₊ ∧
        ⌈((12 : ℕ) : ℚ) / 5⌉₊ ≤ 250) ∧
    (1250 ≤ 12 → (delay_set 12 World.reset).delay_counter = 255) ∧
    ((delay_set 12 World.reset).delay_counter = min ⌈((12 : ℕ) : ℚ) / 5⌉₊ 255 ↔
      (12 < 1250 ∨ 1270 < 12)) :=
  ⟨by decide, delay_set_saturation 12 World.reset (by decide)⟩

/-- C2: `delay_set` is piecewise with threshold 1250 ms. Below the threshold
the counter is exactly `ceil(ms / 5)`, computed as `(ms + 4) / 5` with no
16-bit overflow of the sum and no loss in the 8-bit store; from 1250 up to the
largest 16-bit value the counter is 255, for example at 2000 ms. -/
theorem delay_set_piecewise (ms : Nat) (w : World) (h16 : ms < 65536) :
    (ms < 1250 →
      (delay_set ms w).delay_counter = ⌈(ms : ℚ) / 5⌉₊ ∧
      (delay_set ms w).delay_counter = (ms + 4) / 5 ∧
      ms + 4 < 65536 ∧ (ms + 4) / 5 < 256) ∧
    (1250 ≤ ms → (delay_set ms w).delay_counter = 255) ∧
    (delay_set 2000 w).delay_counter = 255 := by
  rw [ceil_div_five]
  refine ⟨fun h => ?_, fun h => ?_, ?_⟩
  · rw [delay_set_counter, if_neg (by omega)]
    omega
  · rw [delay_set_counter, if_pos h]
  · simp [delay_set_counter]

theorem delay_set_piecewise_witness :
    1249 < 65536 ∧
    (1249 < 1250 →
      (delay_set 1249 World.reset).delay_counter = ⌈((1249 : ℕ) : ℚ) / 5⌉₊ ∧
      (delay_set 1249 World.reset).delay_counter = (1249 + 4) / 5 ∧
      1249 + 4 < 65536 ∧ (1249 + 4) / 5 < 256) ∧
    (1250 ≤ 1249 → (delay_set 1249 World.reset).delay_counter = 255) ∧
    (delay_set 2000 World.reset).delay_counter = 255 :=
  ⟨by decide, delay_set_piecewise 1249 World.reset (by decide)⟩

/-- C3: for `ms < 1250`, whatever the counter held before, after
`delay_set(ms)` and `k` runs of `T3_ISR` with no setter call in between,
`delay_expired()` is true exactly when `k >= ceil(ms / 5)`. So it is true
right after `delay_set(0)`, and after `delay_set(12)` it is false after two
ticks and true after three. -/
theorem delay_expired_after_ticks (ms : Nat) (w : World) (k : Nat) (h : ms < 1250) :
    (delay_expired (T3_ISR^[k] (delay_set ms w)) = true ↔ ⌈(ms : ℚ) / 5⌉₊ ≤ k) ∧
    delay_expired (delay_set 0 w) = true ∧
    delay_expired (T3_ISR^[2] (delay_set 12 w)) = false ∧
    delay_expired (T3_ISR^[3] (delay_set 12 w)) = true := by
  have key : ∀ m j : Nat, m < 1250 →
      (delay_expired (T3_ISR^[j] (delay_set m w)) = true ↔ (m + 4) / 5 ≤ j) := by
    intro m j hm
    have hc : (delay_set m w).delay_counter = (m + 4) / 5 := by
      rw [delay_set_counter, if_neg (by omega)]
      omega
    have hlt : (delay_set m w).delay_counter < 256 := by omega
    simp only [delay_expired, beq_iff_eq, ticks_counter j _ hlt, hc]
    omega
  refine ⟨by rw [ceil_div_five]; exact key ms k h, ?_, ?_, ?_⟩
  · simpa using key 0 0 (by decide)
  · have h2 := key 12 2 (by decide)
    cases hb : delay_expired (T3_ISR^[2] (delay_set 12 w))
    · rfl
    · exact absurd (h2.mp hb) (by decide)
  · exact (key 12 3 (by decide)).mpr (by decide)

theorem delay_expired_after_ticks_witness :
    12 < 1250 ∧
    (delay_expired (T3_ISR^[3] (delay_set 12 World.reset)) = true ↔
      ⌈((12 : ℕ) : ℚ) / 5⌉₊ ≤ 3) ∧
    delay_expired (delay_set 0 World.reset) = true ∧
    delay_expired (T3_ISR^[2] (delay_set 12 World.reset)) = false ∧
    delay_expired (T3_ISR^[3] (delay_set 12 World.reset)) = true :=
  ⟨by decide, delay_expired_after_ticks 12 World.reset 3 (by decide)⟩

/-- C4: the delay counter never goes below zero. From a counter value in
0..255 one run of `T3_ISR` leaves one less when the value was positive and 0
when it was 0 (never 255); over any interleaving of `delay_set`,
`delay_set_ticks` and ticks the counter stays in 0..255; and a counter that is
zero stays zero over any number of ticks with no setter call. -/
theorem delay_counter_never_below_zero (w : World) (ops : List Op)
    (hc : w.delay_counter < 256) :
    (0 < w.delay_counter → (T3_ISR w).delay_counter + 1 = w.delay_counter) ∧
    (w.delay_counter = 0 → (T3_ISR w).delay_counter = 0) ∧
    (runOps ops w).delay_counter < 256 ∧
    (w.delay_counter = 0 → (∀ o ∈ ops, o = Op.tick) →
      (runOps ops w).delay_counter = 0) := by
  refine ⟨fun h => ?_, fun h => ?_, ?_, ?_⟩
  · rw [T3_ISR_counter_lt w hc]
    omega
  · rw [T3_ISR_counter_lt w hc]
    omega
  · induction ops generalizing w with
    | nil => simpa [runOps] using hc
    | cons o os ih => exact ih (o.run w) (Op_run_counter_lt o w hc)
  · intro h0 hall
    induction ops generalizing w with
    | nil => simpa [runOps] using h0
    | cons o os ih =>
      have ho : o = Op.tick := hall o (List.mem_cons_self _ _)
      subst ho
      have h1 : (Op.tick.run w).delay_counter = 0 := by
        simp only [Op.run, T3_ISR_counter_lt w hc]
        omega
      exact ih (Op.tick.run w) (by omega) h1
        (fun o ho => hall o (List.mem_cons_of_mem _ ho))

theorem delay_counter_never_below_zero_witness :
    World.reset.delay_counter < 256 ∧
    (0 < World.reset.delay_counter →
      (T3_ISR World.reset).delay_counter + 1 = World.reset.delay_counter) ∧
    (World.reset.delay_counter = 0 → (T3_ISR World.reset).delay_counter = 0) ∧
    (runOps [Op.tick, Op.tick] World.reset).delay_counter < 256 ∧
    (World.reset.delay_counter = 0 → (∀ o ∈ [Op.tick, Op.tick], o = Op.tick) →
      (runOps [Op.tick, Op.tick] World.reset).delay_counter = 0) :=
  ⟨by decide, delay_counter_never_below_zero World.reset [Op.tick, Op.tick] (by decide)⟩

/-- C5: every run of `T3_ISR`, whatever the delay counter holds, calls
`at_timer` exactly once and `tdm_tick` exactly once, `at_timer` strictly before
`tdm_tick`, and its first step, before either call, is the store that re-arms
timer 3. -/
theorem T3_ISR_tick_calls (w : World) :
    (T3_ISR w).trace = w.trace ++ emitted w (T3_ISR w) ∧
    (emitted w (T3_ISR w)).count Event.at_timer = 1 ∧
    (emitted w (T3_ISR w)).count Event.tdm_tick = 1 ∧
    (emitted w (T3_ISR w)).head? = some (Event.sfr Reg.TMR3CN 4) ∧
    (emitted w (T3_ISR w)).indexOf (Event.sfr Reg.TMR3CN 4) <
      (emitted w (T3_ISR w)).indexOf Event.at_timer ∧
    (emitted w (T3_ISR w)).indexOf Event.at_timer <
      (emitted w (T3_ISR w)).indexOf Event.tdm_tick ∧
    (emitted w (T3_ISR w)).indexOf Event.tdm_tick < (emitted w (T3_ISR w)).length := by
  rw [emitted_of_append (T3_ISR_trace w)]
  refine ⟨T3_ISR_trace w, ?_⟩
  split <;> simp [List.indexOf_cons]

/-- C10, as stated, fails: with the counter at 1 the store of the decremented
value comes before the call of `tdm_tick`, not after it, and `tdm_tick` is
called with the counter already at 0, not at the value 1 from before the
tick. -/
theorem T3_ISR_decrement_not_last :
    emitted { World.reset with delay_counter := 1 }
        (T3_ISR { World.reset with delay_counter := 1 }) =
      [Event.sfr Reg.TMR3CN 4, Event.at_timer, Event.delay_counter 0, Event.tdm_tick] ∧
    ¬ ([Event.sfr Reg.TMR3CN 4, Event.at_timer, Event.delay_counter 0,
          Event.tdm_tick].indexOf Event.tdm_tick <
        [Event.sfr Reg.TMR3CN 4, Event.at_timer, Event.delay_counter 0,
          Event.tdm_tick].indexOf (Event.delay_counter 0)) ∧
    counterSeenAt Event.tdm_tick 1
        (emitted { World.reset with delay_counter := 1 }
          (T3_ISR { World.reset with delay_counter := 1 })) = some 0 ∧
    counterSeenAt Event.tdm_tick 1
        (emitted { World.reset with delay_counter := 1 }
          (T3_ISR { World.reset with delay_counter := 1 })) ≠ some 1 := by
  have h : emitted { World.reset with delay_counter := 1 }
        (T3_ISR { World.reset with delay_counter := 1 }) =
      [Event.sfr Reg.TMR3CN 4, Event.at_timer, Event.delay_counter 0, Event.tdm_tick] := by
    rw [emitted_of_append (T3_ISR_trace _)]
    rfl
  rw [h]
  refine ⟨rfl, by decide, by decide, by decide⟩

/-- C10, amended: every run of `T3_ISR` from a counter value in 0..255
performs its steps in the strict order timer re-arm, AT-parser tick,
delay-counter decrement, TDM tick, where the decrement is performed exactly
when the counter is non-zero. From a non-zero counter the steps are exactly
those four, with the store of the decremented value after `at_timer` and
before `tdm_tick`; from a zero counter they are exactly re-arm, `at_timer`,
`tdm_tick`, with no store to the counter. In every run `at_timer` is called
with the counter value from before this tick and `tdm_tick` with the value the
tick leaves behind, which after a decrement is one less. -/
theorem T3_ISR_step_order (w : World) (hc : w.delay_counter < 256) :
    (0 < w.delay_counter →
      emitted w (T3_ISR w) =
        [Event.sfr Reg.TMR3CN 4, Event.at_timer,
          Event.delay_counter (w.delay_counter - 1), Event.tdm_tick] ∧
      (emitted w (T3_ISR w)).indexOf Event.at_timer <
        (emitted w (T3_ISR w)).indexOf (Event.delay_counter (w.delay_counter - 1)) ∧
      (emitted w (T3_ISR w)).indexOf (Event.delay_counter (w.delay_counter - 1)) <
        (emitted w (T3_ISR w)).indexOf Event.tdm_tick ∧
      counterSeenAt Event.tdm_tick w.delay_counter (emitted w (T3_ISR w)) =
        some (w.delay_counter - 1)) ∧
    (w.delay_counter = 0 →
      emitted w (T3_ISR w) =
        [Event.sfr Reg.TMR3CN 4, Event.at_timer, Event.tdm_tick] ∧
      (∀ v : Nat, Event.delay_counter v ∉ emitted w (T3_ISR w)) ∧
      counterSeenAt Event.tdm_tick w.delay_counter (emitted w (T3_ISR w)) = some 0) ∧
    (emitted w (T3_ISR w)).head? = some (Event.sfr Reg.TMR3CN 4) ∧
    (emitted w (T3_ISR w)).indexOf (Event.sfr Reg.TMR3CN 4) <
      (emitted w (T3_ISR w)).indexOf Event.at_timer ∧
    (emitted w (T3_ISR w)).indexOf Event.at_timer <
      (emitted w (T3_ISR w)).indexOf Event.tdm_tick ∧
    (emitted w (T3_ISR w)).indexOf Event.tdm_tick < (emitted w (T3_ISR w)).length ∧
    counterSeenAt Event.at_timer w.delay_counter (emitted w (T3_ISR w)) =
      some w.delay_counter ∧
    counterSeenAt Event.tdm_tick w.delay_counter (emitted w (T3_ISR w)) =
      some (T3_ISR w).delay_counter := by
  rw [emitted_of_append (T3_ISR_trace w), T3_ISR_counter_lt w hc]
  rcases Nat.eq_zero_or_pos w.delay_counter with h0 | hpos
  · simp [h0, List.indexOf_cons, counterSeenAt]
  · have hd : (w.delay_counter + 255) % 256 = w.delay_counter - 1 := by omega
    have hne : w.delay_counter ≠ 0 := by omega
    rw [if_pos hpos, hd]
    simp [hne, hpos, List.indexOf_cons, counterSeenAt]

theorem T3_ISR_step_order_witness :
    ({ World.reset with delay_counter := 3 } : World).delay_counter < 256 ∧
    World.reset.delay_counter < 256 ∧
    emitted { World.reset with delay_counter := 3 }
        (T3_ISR { World.reset with delay_counter := 3 }) =
      [Event.sfr Reg.TMR3CN 4, Event.at_timer, Event.delay_counter (3 - 1),
        Event.tdm_tick] ∧
    counterSeenAt Event.tdm_tick 3
        (emitted { World.reset with delay_counter := 3 }
          (T3_ISR { World.reset with delay_counter := 3 })) = some (3 - 1) ∧
    emitted World.reset (T3_ISR World.reset) =
      [Event.sfr Reg.TMR3CN 4, Event.at_timer, Event.tdm_tick] ∧
    counterSeenAt Event.tdm_tick 0 (emitted World.reset (T3_ISR World.reset)) = some 0 :=
  have h3 := (T3_ISR_step_order { World.reset with delay_counter := 3 }
    (by decide)).1 (by decide)
  have h0 := (T3_ISR_step_order World.reset (by decide)).2.1 rfl
  ⟨by decide, by decide, h3.1, h3.2.2.2, h0.1, h0.2.2⟩

/-! ## Peripheral bring-up -/

theorem hardware_init_trace (k : Consts) (env : Env) (w : World) :
    (hardware_init k env w).trace = w.trace ++ hardware_init_events k env w.sfr := by
  simp [hardware_init, hardware_init_events, World.set, World.call, Function.update]

@[simp] theorem hardware_init_board_frequency (k : Consts) (env : Env) (w : World) :
    (hardware_init k env w).g_board_frequency = w.g_board_frequency := rfl

/-- C8: in the ordered steps of `hardware_init` the store `EA = 1` occurs
exactly once, after the two timer 3 reload bytes, the timer 3 start, the
`EIE1` store that enables the timer 3 interrupt source and the call of
`serial_init`; the only steps after it are the two LED stores and the final
`XBR2` store. -/
theorem hardware_init_interrupts_last (k : Consts) (env : Env) (w : World) :
    (emitted w (hardware_init k env w)).countP Event.isEAStore = 1 ∧
    ∃ pre : List Event,
      (hardware_init k env w).trace = w.trace ++ emitted w (hardware_init k env w) ∧
      emitted w (hardware_init k env w) =
        pre ++ [Event.sfr Reg.EA 1, Event.sfr Reg.LED_RADIO k.LED_ON,
          Event.sfr Reg.LED_BOOTLOADER k.LED_OFF, Event.sfr Reg.XBR2 0x40] ∧
      (∀ e ∈ pre, e.isEAStore = false) ∧
      Event.sfr Reg.TMR3RLL (tmr3_reload k &&& 0xff) ∈ pre ∧
      Event.sfr Reg.TMR3RLH ((tmr3_reload k >>> 8) &&& 0xff) ∈ pre ∧
      Event.sfr Reg.TMR3CN 0x04 ∈ pre ∧
      Event.sfr Reg.EIE1 ((w.sfr Reg.EIE1 ||| 0x80) % 256) ∈ pre ∧
      Event.serial_init (env.param_get ParamID.PARAM_SERIAL_SPEED) ∈ pre := by
  rw [emitted_of_append (hardware_init_trace k env w)]
  refine ⟨by simp [hardware_init_events, Event.isEAStore], ?_⟩
  refine ⟨(hardware_init_events k env w.sfr).take 28, hardware_init_trace k env w, ?_⟩
  simp [hardware_init_events, Event.isEAStore]

/-! ## Radio bring-up -/

theorem radio_init_trace (k : Consts) (env : Env) (w : World) :
    (radio_init k env w).world.trace =
      w.trace ++ radio_init_events k env w.g_board_frequency := by
  unfold radio_init radio_init_events radio_init_rest
  cases hi : env.radio_initialise
  · simp [Res.bind, Res.world, panic, panic_output, World.call]
  · cases hb : band_frequency k w.g_board_frequency with
    | none => simp [Res.bind, Res.world, panic, panic_output, World.call, hb]
    | some freq =>
      cases hcfg : env.radio_configure <;>
        simp [Res.bind, Res.world, panic, panic_output, World.call, hb,
          radio_init_setup, radio_init_tail]

theorem radio_init_halted (k : Consts) (env : Env) (w : World) :
    (radio_init k env w).halted = radio_init_fails k env w.g_board_frequency := by
  unfold radio_init radio_init_fails
  cases hi : env.radio_initialise
  · simp [Res.bind, Res.halted, panic]
  · cases hb : band_frequency k w.g_board_frequency with
    | none => simp [Res.bind, Res.halted, panic, World.call, hb]
    | some freq =>
      cases hcfg : env.radio_configure <;>
        simp [Res.bind, Res.halted, panic, World.call, hb]

theorem band_frequency_eq_none (k : Consts) (band : Nat) :
    band_frequency k band = none ↔ ¬ k.supported band := by
  unfold band_frequency Consts.supported
  split_ifs <;> simp_all

theorem frequencyArgs_radio_init (k : Consts) (env : Env) (band freq : Nat)
    (hinit : env.radio_initialise = true) (hb : band_frequency k band = some freq) :
    frequencyArgs (radio_init_events k env band) = [freq] := by
  unfold radio_init_events radio_init_rest
  cases hcfg : env.radio_configure <;>
    simp [hinit, hb, radio_init_setup, radio_init_tail, panic_output, frequencyArgs]

theorem channelArgs_radio_init (k : Consts) (env : Env) (band : Nat)
    (hinit : env.radio_initialise = true) (hb : k.supported band) :
    channelArgs (radio_init_events k env band) =
      [env.param_get ParamID.PARAM_NETID % k.NUM_FREQ_CHANNELS] := by
  unfold radio_init_events radio_init_rest
  cases hf : band_frequency k band with
  | none => exact absurd hb ((band_frequency_eq_none k band).mp hf)
  | some freq =>
    cases hcfg : env.radio_configure <;>
      simp [hinit, radio_init_setup, radio_init_tail, panic_output, channelArgs]

/-- C6: given that `radio_initialise` succeeded, `radio_init` passes to
`radio_set_frequency` the base frequency of the captured board band:
433000000, 470000000, 868000000 or 915000000 Hz for `FREQ_433`, `FREQ_470`,
`FREQ_868`, `FREQ_915`. For every other band value it ends in `panic` with the
message "bad board frequency %d" carrying the bad value, directly after
`radio_initialise`, and `radio_set_frequency` is never called. -/
theorem radio_init_band_table (k : Consts) (env : Env) (w : World)
    (hd : k.labels_distinct) (hinit : env.radio_initialise = true) :
    (w.g_board_frequency = k.FREQ_433 →
      frequencyArgs (emitted w (radio_init k env w).world) = [433000000]) ∧
    (w.g_board_frequency = k.FREQ_470 →
      frequencyArgs (emitted w (radio_init k env w).world) = [470000000]) ∧
    (w.g_board_frequency = k.FREQ_868 →
      frequencyArgs (emitted w (radio_init k env w).world) = [868000000]) ∧
    (w.g_board_frequency = k.FREQ_915 →
      frequencyArgs (emitted w (radio_init k env w).world) = [915000000]) ∧
    (¬ k.supported w.g_board_frequency →
      (radio_init k env w).halted = true ∧
      frequencyArgs (emitted w (radio_init k env w).world) = [] ∧
      eventsAfter Event.radio_initialise (emitted w (radio_init k env w).world) =
        panic_output "bad board frequency %d" [w.g_board_frequency]) := by
  obtain ⟨d12, d13, d14, d23, d24, d34⟩ := hd
  rw [emitted_of_append (radio_init_trace k env w)]
  refine ⟨fun h => ?_, fun h => ?_, fun h => ?_, fun h => ?_, fun h => ?_⟩
  · exact frequencyArgs_radio_init k env _ _ hinit (by simp [band_frequency, h])
  · exact frequencyArgs_radio_init k env _ _ hinit
      (by simp [band_frequency, h, Ne.symm d12])
  · exact frequencyArgs_radio_init k env _ _ hinit
      (by simp [band_frequency, h, Ne.symm d13, Ne.symm d23])
  · exact frequencyArgs_radio_init k env _ _ hinit
      (by simp [band_frequency, h, Ne.symm d14, Ne.symm d24, Ne.symm d34])
  · have hb := (band_frequency_eq_none k _).mpr h
    refine ⟨by simp [radio_init_halted, radio_init_fails, hb], ?_, ?_⟩ <;>
      simp [radio_init_events, radio_init_rest, hinit, hb, panic_output, frequencyArgs,
        eventsAfter]

theorem radio_init_band_table_witness :
    Consts.si1000.labels_distinct ∧ Env.good.radio_initialise = true ∧
    frequencyArgs (emitted { World.reset with g_board_frequency := 0x91 }
      (radio_init Consts.si1000 Env.good
        { World.reset with g_board_frequency := 0x91 }).world) = [915000000] ∧
    ¬ Consts.si1000.supported 3 ∧
    (radio_init Consts.si1000 Env.good
      { World.reset with g_board_frequency := 3 }).halted = true ∧
    eventsAfter Event.radio_initialise
      (emitted { World.reset with g_board_frequency := 3 }
        (radio_init Consts.si1000 Env.good
          { World.reset with g_board_frequency := 3 }).world) =
      panic_output "bad board frequency %d" [3] :=
  have hbad := (radio_init_band_table Consts.si1000 Env.good
    { World.reset with g_board_frequency := 3 } (by decide) rfl).2.2.2.2 (by decide)
  ⟨by decide, rfl,
    (radio_init_band_table Consts.si1000 Env.good
      { World.reset with g_board_frequency := 0x91 } (by decide) rfl).2.2.2.1 rfl,
    by decide, hbad.1, hbad.2.2⟩

/-- C9: when `radio_init` reaches `radio_set_channel` (PHY initialisation
succeeded, supported band) and `NUM_FREQ_CHANNELS >= 1`, the one channel it
passes is `param_get(PARAM_NETID) mod NUM_FREQ_CHANNELS`, which is below
`NUM_FREQ_CHANNELS`; any other boot with the same network id and channel count
passes the same channel, whatever else differs. Network id 5 with 50 channels
gives channel 5. -/
theorem radio_init_initial_channel (k : Consts) (env : Env) (w : World)
    (hN : 1 ≤ k.NUM_FREQ_CHANNELS) (hinit : env.radio_initialise = true)
    (hband : k.supported w.g_board_frequency) :
    channelArgs (emitted w (radio_init k env w).world) =
      [env.param_get ParamID.PARAM_NETID % k.NUM_FREQ_CHANNELS] ∧
    env.param_get ParamID.PARAM_NETID % k.NUM_FREQ_CHANNELS < k.NUM_FREQ_CHANNELS ∧
    (∀ (k2 : Consts) (env2 : Env) (w2 : World),
      env2.radio_initialise = true → k2.supported w2.g_board_frequency →
      k2.NUM_FREQ_CHANNELS = k.NUM_FREQ_CHANNELS →
      env2.param_get ParamID.PARAM_NETID = env.param_get ParamID.PARAM_NETID →
      channelArgs (emitted w2 (radio_init k2 env2 w2).world) =
        channelArgs (emitted w (radio_init k env w).world)) ∧
    (k.NUM_FREQ_CHANNELS = 50 → env.param_get ParamID.PARAM_NETID = 5 →
      channelArgs (emitted w (radio_init k env w).world) = [5]) := by
  have hmain : channelArgs (emitted w (radio_init k env w).world) =
      [env.param_get ParamID.PARAM_NETID % k.NUM_FREQ_CHANNELS] := by
    rw [emitted_of_append (radio_init_trace k env w)]
    exact channelArgs_radio_init k env _ hinit hband
  refine ⟨hmain, Nat.mod_lt _ (by omega), ?_, ?_⟩
  · intro k2 env2 w2 hinit2 hband2 hk hid
    rw [hmain, emitted_of_append (radio_init_trace k2 env2 w2),
      channelArgs_radio_init k2 env2 _ hinit2 hband2, hk, hid]
  · intro h50 h5
    rw [hmain, h50, h5]

theorem radio_init_initial_channel_witness :
    1 ≤ Consts.si1000.NUM_FREQ_CHANNELS ∧ Env.good.radio_initialise = true ∧
    Consts.si1000.supported 0x91 ∧
    channelArgs (emitted { World.reset with g_board_frequency := 0x91 }
      (radio_init Consts.si1000 Env.good
        { World.reset with g_board_frequency := 0x91 }).world) = [5] :=
  ⟨by decide, rfl, by decide,
    (radio_init_initial_channel Consts.si1000 Env.good
      { World.reset with g_board_frequency := 0x91 } (by decide) rfl
      (by decide)).2.2.2 rfl rfl⟩

/-! ## Boot sequence -/

theorem main_trace (k : Consts) (env : Env) (w : World) :
    (main k env w).world.trace = w.trace ++ main_events k env w.sfr ∧
    (main k env w).halted =
      (radio_init_fails k env env.BOARD_FREQUENCY_REG || !env.radio_receiver_on) := by
  have key : ∀ w1 : World, w1.trace = w.trace ++ main_start k env w.sfr →
      w1.g_board_frequency = env.BOARD_FREQUENCY_REG →
      (((radio_init k env w1).bind fun w =>
          (if (!env.radio_receiver_on) = true then
              panic "failed to enable receiver" [] (w.call Event.radio_receiver_on)
            else Res.ok (w.call Event.radio_receiver_on)).bind
            fun w => Res.ok (w.call Event.tdm_serial_loop)).world.trace =
        w.trace ++ main_events k env w.sfr) ∧
      (((radio_init k env w1).bind fun w =>
          (if (!env.radio_receiver_on) = true then
              panic "failed to enable receiver" [] (w.call Event.radio_receiver_on)
            else Res.ok (w.call Event.radio_receiver_on)).bind
            fun w => Res.ok (w.call Event.tdm_serial_loop)).halted =
        (radio_init_fails k env env.BOARD_FREQUENCY_REG || !env.radio_receiver_on)) := by
    intro w1 ht1 hf1
    have hrt := radio_init_trace k env w1
    have hrh := radio_init_halted k env w1
    rw [hf1, ht1] at hrt
    rw [hf1] at hrh
    cases hr : radio_init k env w1 with
    | halt w2 =>
      rw [hr] at hrt hrh
      simp only [Res.world] at hrt
      simp only [Res.halted] at hrh
      simp [Res.bind, Res.world, Res.halted, hrt, ← hrh, main_events]
    | ok w2 =>
      rw [hr] at hrt hrh
      simp only [Res.world] at hrt
      simp only [Res.halted] at hrh
      cases hrx : env.radio_receiver_on <;>
        simp [Res.bind, Res.world, Res.halted, hrt, ← hrh, main_events, main_finish,
          panic, panic_output, World.call, hrx]
  unfold main
  refine key _ ?_ ?_
  · rw [hardware_init_trace]
    cases hpl : env.param_load <;> simp [main_start, World.call, hpl]
  · rw [hardware_init_board_frequency]
    cases hpl : env.param_load <;> simp [World.call, hpl]

theorem eventsAfter_append (e : Event) (l1 l2 : List Event) (h : e ∉ l1) :
    eventsAfter e (l1 ++ l2) = eventsAfter e l2 := by
  induction l1 with
  | nil => rfl
  | cons x xs ih =>
    have hx : x ≠ e := fun hxe => h (by simp [hxe])
    have hxs : e ∉ xs := fun hm => h (List.mem_cons_of_mem _ hm)
    simp [eventsAfter, hx, ih hxs]

theorem radio_initialise_not_mem_main_start (k : Consts) (env : Env) (sfr : Reg → Nat) :
    Event.radio_initialise ∉ main_start k env sfr := by
  cases hpl : env.param_load <;> simp [main_start, hardware_init_events, hpl]

theorem radio_configure_not_mem_main_start (k : Consts) (env : Env) (sfr : Reg → Nat)
    (r : Nat) : Event.radio_configure r ∉ main_start k env sfr := by
  cases hpl : env.param_load <;> simp [main_start, hardware_init_events, hpl]

theorem radio_receiver_on_not_mem_main_start (k : Consts) (env : Env) (sfr : Reg → Nat) :
    Event.radio_receiver_on ∉ main_start k env sfr := by
  cases hpl : env.param_load <;> simp [main_start, hardware_init_events, hpl]

theorem tdm_serial_loop_not_mem_main_start (k : Consts) (env : Env) (sfr : Reg → Nat) :
    Event.tdm_serial_loop ∉ main_start k env sfr := by
  cases hpl : env.param_load <;> simp [main_start, hardware_init_events, hpl]

theorem count_param_default_main_start (k : Consts) (env : Env) (sfr : Reg → Nat) :
    (main_start k env sfr).count Event.param_default =
      if env.param_load = false then 1 else 0 := by
  have hhw : (hardware_init_events k env sfr).count Event.param_default = 0 :=
    List.count_eq_zero.mpr (by simp [hardware_init_events])
  have hne : (Event.param_load == Event.param_default) = false := by decide
  unfold main_start
  rw [List.count_cons, List.count_append, hhw, hne]
  cases hpl : env.param_load <;> simp

theorem radio_init_rest_cases (k : Consts) (env : Env) (band : Nat) :
    (radio_init_fails k env band = true ∧
      ((env.radio_initialise = false ∧
          radio_init_rest k env band = panic_output "radio_initialise failed" []) ∨
        (env.radio_initialise = true ∧ ¬ k.supported band ∧
          radio_init_rest k env band = panic_output "bad board frequency %d" [band]) ∨
        (env.radio_initialise = true ∧ k.supported band ∧ env.radio_configure = false ∧
          ∃ freq, radio_init_rest k env band =
            radio_init_setup k env freq ++ panic_output "radio_configure failed" []))) ∨
    (radio_init_fails k env band = false ∧ env.radio_initialise = true ∧
      k.supported band ∧ env.radio_configure = true ∧
      ∃ freq, radio_init_rest k env band =
        radio_init_setup k env freq ++ radio_init_tail env) := by
  have hnone := band_frequency_eq_none k band
  cases hi : env.radio_initialise
  · simp [radio_init_fails, radio_init_rest, hi]
  · cases hb : band_frequency k band with
    | none =>
      have hs : ¬ k.supported band := hnone.mp hb
      simp [radio_init_fails, radio_init_rest, hi, hb, hs]
    | some freq =>
      have hs : k.supported band := by
        by_contra hns
        rw [hnone.mpr hns] at hb
        exact Option.noConfusion hb
      cases hcfg : env.radio_configure <;>
        simp [radio_init_fails, radio_init_rest, hi, hb, hs, hcfg]

/-- C7: for every combination of results of the external calls, `main` reaches
the hand-off `tdm_serial_loop` if and only if `radio_initialise` succeeds, the
board band is one of the four supported values, `radio_configure` succeeds and
`radio_receiver_on` succeeds; otherwise it ends in `panic`, and the output of
`panic` directly follows the first failing step, with nothing after it. The
result of `param_load` plays no part in that: `param_default` is called exactly
when `param_load` fails, right after it and before the steps of
`hardware_init`, and the sequence continues with `radio_initialise`. -/
theorem main_boot_outcome (k : Consts) (env : Env) (w : World) :
    (Event.tdm_serial_loop ∈ boot_events k env w ↔ boot_succeeds k env) ∧
    ((main k env w).halted = false ↔ boot_succeeds k env) ∧
    (env.radio_initialise = false →
      eventsAfter Event.radio_initialise (boot_events k env w) =
        panic_output "radio_initialise failed" []) ∧
    (env.radio_initialise = true → ¬ k.supported env.BOARD_FREQUENCY_REG →
      eventsAfter Event.radio_initialise (boot_events k env w) =
        panic_output "bad board frequency %d" [env.BOARD_FREQUENCY_REG]) ∧
    (env.radio_initialise = true → k.supported env.BOARD_FREQUENCY_REG →
      env.radio_configure = false →
      eventsAfter
          (Event.radio_configure (env.param_get ParamID.PARAM_AIR_SPEED * 1000 % 4294967296))
          (boot_events k env w) =
        panic_output "radio_configure failed" []) ∧
    (env.radio_initialise = true → k.supported env.BOARD_FREQUENCY_REG →
      env.radio_configure = true → env.radio_receiver_on = false →
      eventsAfter Event.radio_receiver_on (boot_events k env w) =
        panic_output "failed to enable receiver" []) ∧
    ((boot_events k env w).count Event.param_default =
      if env.param_load = false then 1 else 0) ∧
    (∃ rest : List Event, boot_events k env w =
      Event.param_load :: ((if env.param_load = false then [Event.param_default] else []) ++
        (emitted w (hardware_init k env w) ++ Event.radio_initialise :: rest))) := by
  have hev : boot_events k env w = main_events k env w.sfr :=
    emitted_of_append (main_trace k env w).1
  rw [hev, (main_trace k env w).2]
  have hlast : ∃ rest : List Event, main_events k env w.sfr =
      Event.param_load :: ((if env.param_load = false then [Event.param_default] else []) ++
        (emitted w (hardware_init k env w) ++ Event.radio_initialise :: rest)) := by
    rw [emitted_of_append (hardware_init_trace k env w)]
    exact ⟨radio_init_rest k env env.BOARD_FREQUENCY_REG ++
      (if radio_init_fails k env env.BOARD_FREQUENCY_REG = true then []
       else main_finish env), by
      simp only [main_events, main_start, radio_init_events, List.cons_append,
        List.append_assoc]⟩
  have hA := eventsAfter_append Event.radio_initialise (main_start k env w.sfr)
  have hB := eventsAfter_append
    (Event.radio_configure (env.param_get ParamID.PARAM_AIR_SPEED * 1000 % 4294967296))
    (main_start k env w.sfr)
  have hC := eventsAfter_append Event.radio_receiver_on (main_start k env w.sfr)
  have hnA := radio_initialise_not_mem_main_start k env w.sfr
  have hnB := radio_configure_not_mem_main_start k env w.sfr
    (env.param_get ParamID.PARAM_AIR_SPEED * 1000 % 4294967296)
  have hnC := radio_receiver_on_not_mem_main_start k env w.sfr
  have hnD := tdm_serial_loop_not_mem_main_start k env w.sfr
  have hcnt := count_param_default_main_start k env w.sfr
  have hcr : ∀ l : List Event, l.count Event.param_default = 0 →
      (main_start k env w.sfr ++ l).count Event.param_default =
        if env.param_load = false then 1 else 0 := by
    intro l hl
    rw [List.count_append, hcnt, hl, Nat.add_zero]
  unfold main_events radio_init_events
  rw [hA _ hnA, hB _ hnB, hC _ hnC, List.mem_append]
  refine ⟨?_, ?_, ?_, ?_, ?_, ?_, ?_, hlast⟩
  on_goal 7 => apply hcr; rw [List.count_eq_zero]
  all_goals
    rcases radio_init_rest_cases k env env.BOARD_FREQUENCY_REG with
      ⟨hf, ⟨hi, hre⟩ | ⟨hi, hs, hre⟩ | ⟨hi, hs, hcfg, freq, hre⟩⟩ |
      ⟨hf, hi, hs, hcfg, freq, hre⟩ <;>
    cases hrx : env.radio_receiver_on <;>
    solve
    | (simp [hnD, hf, hi, hs, hcfg, hre, hrx, boot_succeeds, main_finish, panic_output,
        radio_init_setup, radio_init_tail, eventsAfter])
    | (simp [hnD, hf, hi, hs, hre, hrx, boot_succeeds, main_finish, panic_output,
        radio_init_setup, radio_init_tail, eventsAfter])
    | (simp [hnD, hf, hi, hre, hrx, boot_succeeds, main_finish, panic_output,
        radio_init_setup, radio_init_tail, eventsAfter])

end Sik

